import Mathlib

/-!
Verification of the db-wrapper query middleware (core.js, adapters/mysql.js,
index.js) against its natural-language specification.

The JavaScript source is shallowly embedded: JS values that flow through the
wrapper are modelled by the inductive type `Value` (scalars, null, undefined
and arrays; the wrapper never inspects object internals, so row objects can be
represented by any `Value`); exceptions are modelled by `Except`; the adapter
is a record of (optional) functions; invocations of adapter methods are
recorded in an explicit call trace so that "the adapter is never invoked"
claims are expressible.
-/

namespace DbWrapper

/-- Model of the JS values the wrapper manipulates: `null`, `undefined`,
booleans, (integer) numbers, strings and arrays.  Row objects are opaque to
the core, so any `Value` can stand for a row. -/
inductive Value where
  | vNull : Value
  | vUndefined : Value
  | vBool : Bool → Value
  | vNum : Int → Value
  | vStr : String → Value
  | vArr : List Value → Value

/-- JS truthiness for the modelled values (`NaN` is not modelled; arrays,
like every object, are truthy). -/
def Value.truthy : Value → Bool
  | .vNull => false
  | .vUndefined => false
  | .vBool b => b
  | .vNum n => n != 0
  | .vStr s => s != ""
  | .vArr _ => true

/-- `Array.isArray`. -/
def Value.isArray : Value → Bool
  | .vArr _ => true
  | _ => false

/-- The check `value === null || value === undefined || value === ''` from
`validateParams`. -/
def Value.isEmptyParam : Value → Bool
  | .vNull => true
  | .vUndefined => true
  | .vStr s => s == ""
  | _ => false

/-- JSON string escaping (backslash and double quote), as performed by
`JSON.stringify` on the characters that occur in this model. -/
def jsonEscape (s : String) : String :=
  ⟨s.data.flatMap (fun c => if c = '"' ∨ c = '\\' then ['\\', c] else [c])⟩

mutual

/-- Model of `JSON.stringify` on a `Value`: `undefined` serializes to
`"null"` inside arrays (the only compound position in this model); the
top-level `undefined` case is handled by `jsonTop`. -/
def Value.json : Value → String
  | .vNull => "null"
  | .vUndefined => "null"
  | .vBool true => "true"
  | .vBool false => "false"
  | .vNum n => toString n
  | .vStr s => "\"" ++ jsonEscape s ++ "\""
  | .vArr xs => "[" ++ jsonList xs ++ "]"

/-- Comma-separated serialization of array elements. -/
def jsonList : List Value → String
  | [] => ""
  | [x] => x.json
  | x :: y :: rest => x.json ++ "," ++ jsonList (y :: rest)

end

/-- `JSON.stringify` applied at top level: a bare `undefined` has no JSON
representation and stringifies (via template-literal interpolation) to the
text `undefined`. -/
def jsonTop : Value → String
  | .vUndefined => "undefined"
  | v => v.json

/-- `JSON.stringify` of the normalized parameter array. -/
def jsonArr (xs : List Value) : String :=
  "[" ++ jsonList xs ++ "]"

/-! ## Placeholder counting (`DbWrapper.countPlaceholders` in core.js) -/

/-- JS `\w` word characters: ASCII letters, digits and underscore. -/
def isWordChar (c : Char) : Bool :=
  (('a' ≤ c ∧ c ≤ 'z') ∨ ('A' ≤ c ∧ c ≤ 'Z') ∨ ('0' ≤ c ∧ c ≤ '9') ∨ c = '_')

/-- `\d` digits. -/
def isDigitChar (c : Char) : Bool :=
  ('0' ≤ c ∧ c ≤ '9')

/-- `parseInt` on a string of decimal digits. -/
def digitsToNat (ds : List Char) : Nat :=
  ds.foldl (fun n c => n * 10 + (c.toNat - '0'.toNat)) 0

/-- Scanner for the global regex match `/\$\d+/g`, fuelled so that the
definition reduces by rfl: a leftmost-first, non-overlapping scan where each
`$` followed by at least one digit yields a token consisting of the maximal
digit run.  Each step consumes at least one character, so `fuel = l.length`
(as supplied by `dollarTokens`) never runs out. -/
def dollarTokensGo : Nat → List Char → List Nat
  | 0, _ => []
  | _ + 1, [] => []
  | fuel + 1, c :: rest =>
    if c = '$' ∧ rest.takeWhile isDigitChar ≠ [] then
      digitsToNat (rest.takeWhile isDigitChar) :: dollarTokensGo fuel (rest.dropWhile isDigitChar)
    else
      dollarTokensGo fuel rest

/-- The numeric values of the tokens produced by `sql.match(/\$\d+/g)`. -/
def dollarTokens (l : List Char) : List Nat :=
  dollarTokensGo l.length l

/-- Scanner for the global regex match `/:\w+/g`, fuelled like
`dollarTokensGo`: each `:` followed by at least one word character yields a
token consisting of the maximal word-character run. -/
def namedCountGo : Nat → List Char → Nat
  | 0, _ => 0
  | _ + 1, [] => 0
  | fuel + 1, c :: rest =>
    if c = ':' ∧ rest.takeWhile isWordChar ≠ [] then
      1 + namedCountGo fuel (rest.dropWhile isWordChar)
    else
      namedCountGo fuel rest

/-- The number of tokens produced by `sql.match(/:\w+/g)`. -/
def namedCount (l : List Char) : Nat :=
  namedCountGo l.length l

/-- `DbWrapper.countPlaceholders(sql)`: `sql.match(/\?/g)` is non-null iff the
string has a `?`, in which case its length is the occurrence count; else
`sql.match(/\$\d+/g)` is non-null iff there is a dollar-digit token, in which
case the count is `new Set(matches.map(m => parseInt(m.substring(1)))).size`;
else the count of `/:\w+/g` matches; else 0. -/
def countPlaceholders (sql : String) : Nat :=
  if sql.data.count '?' ≠ 0 then
    sql.data.count '?'
  else if dollarTokens sql.data ≠ [] then
    (dollarTokens sql.data).dedup.length
  else
    namedCount sql.data

/-! ## Errors (`DatabaseError` in core.js) -/

/-- `DatabaseError`: a classified error carrying a user-safe message, a
diagnostic detail string and a category tag.  The constructor's console
logging is a side effect outside this embedding. -/
structure DatabaseError where
  message : String
  details : String
  errType : String
deriving DecidableEq

/-- A raw driver error as inspected by `wrapDatabaseError`: `code`,
`message` and `stack` may each be absent (`undefined`). -/
structure RawError where
  code : Option String
  message : Option String
  stack : Option String
deriving DecidableEq

/-- An exception crossing the adapter boundary is either a raw driver error
or something already in `DatabaseError` shape (`error instanceof
DatabaseError`). -/
inductive JsErr where
  | raw : RawError → JsErr
  | classified : DatabaseError → JsErr

/-! ## Parameter normalization and validation
(`DbWrapper.validateParams` in core.js) -/

/-- `const paramArray = Array.isArray(params) ? params : (params ? [params] : [])`.
Note the middle case tests JS truthiness, not only null/undefined. -/
def normalizeParams (params : Value) : List Value :=
  match params with
  | .vArr xs => xs
  | v => if v.truthy then [v] else []

/-- The `VALIDATION_MISMATCH` diagnostic detail string. -/
def mismatchDetails (sql : String) (expected got : Nat) (arr : List Value) : String :=
  "Placeholder count mismatch. Expected " ++ toString expected ++
    " parameters but got " ++ toString got ++ ". SQL: " ++ sql ++
    ", Params: " ++ jsonArr arr

/-- The `VALIDATION_EMPTY` diagnostic detail string, naming the zero-based
index of the offending parameter. -/
def emptyDetails (sql : String) (i : Nat) (arr : List Value) : String :=
  "Parameter at index " ++ toString i ++ " is empty/null/undefined. SQL: " ++
    sql ++ ", Params: " ++ jsonArr arr

/-- The `for (let i = 0; ...)` scan of `validateParams`: the index of the
first element (counting from `i`) that is null, undefined or the empty
string. -/
def firstEmptyIdx : List Value → Nat → Option Nat
  | [], _ => none
  | v :: rest, i => if v.isEmptyParam then some i else firstEmptyIdx rest (i + 1)

/-- `DbWrapper.validateParams(sql, params)`: returns `true` on success, and
the thrown `DatabaseError` on failure. -/
def validateParams (sql : String) (params : Value) : Except DatabaseError Bool :=
  if countPlaceholders sql ≠ (normalizeParams params).length then
    .error ⟨"Invalid request parameters",
      mismatchDetails sql (countPlaceholders sql) (normalizeParams params).length
        (normalizeParams params),
      "VALIDATION_MISMATCH"⟩
  else
    match firstEmptyIdx (normalizeParams params) 0 with
    | some i => .error ⟨"Invalid request parameters",
        emptyDetails sql i (normalizeParams params), "VALIDATION_EMPTY"⟩
    | none => .ok true

/-! ## Error classification (`DbWrapper.wrapDatabaseError` in core.js) -/

/-- `pat` occurs as a contiguous substring of `l` (the semantics of JS
`String.prototype.includes`). -/
def infixCheck (pat : List Char) : List Char → Bool
  | [] => pat.isEmpty
  | c :: rest => pat.isPrefixOf (c :: rest) || infixCheck pat rest

/-- `error.message?.includes(pat)`: false when `message` is absent. -/
def msgIncludes (e : RawError) (pat : String) : Bool :=
  match e.message with
  | some m => infixCheck pat.data m.data
  | none => false

/-- Interpolation of a possibly-absent string into a template literal
(`undefined` prints as the text `undefined`). -/
def optText : Option String → String
  | some s => s
  | none => "undefined"

/-- `error.code || 'N/A'`: an absent or empty code falls back to `N/A`. -/
def codeText : Option String → String
  | some c => if c = "" then "N/A" else c
  | none => "N/A"

/-- The diagnostic detail built by `wrapDatabaseError`. -/
def wrapDetails (e : RawError) (sql : String) (params : Value) : String :=
  "Original error: " ++ optText e.message ++ "\nStack: " ++ optText e.stack ++
    "\nSQL: " ++ sql ++ "\nParams: " ++ jsonTop params ++
    "\nError code: " ++ codeText e.code

/-- The ordered if/else-if chain of `wrapDatabaseError` (core.js), mapping
driver error signals to a user message and a category, defaulting to
`DB_UNKNOWN`. -/
def classifyPair (e : RawError) : String × String :=
  if e.code == some "ER_DUP_ENTRY" then
      ("This record already exists", "DB_DUPLICATE")
    else if e.code == some "ER_NO_SUCH_TABLE" then
      ("Unable to process request", "DB_TABLE_NOT_FOUND")
    else if e.code == some "ER_BAD_FIELD_ERROR" then
      ("Invalid request parameters", "DB_FIELD_ERROR")
    else if e.code == some "SQLITE_CONSTRAINT" || msgIncludes e "UNIQUE constraint" then
      ("This record already exists", "DB_DUPLICATE")
    else if e.code == some "23505" then
      ("This record already exists", "DB_DUPLICATE")
    else if e.code == some "23503" then
      ("Cannot perform this operation", "DB_FOREIGN_KEY")
    else if e.code == some "ECONNREFUSED" || e.code == some "ENOTFOUND" ||
        e.code == some "ETIMEDOUT" || msgIncludes e "connect" ||
        msgIncludes e "connection" then
      ("Unable to connect to database", "DB_CONNECTION")
    else if msgIncludes e "syntax" || msgIncludes e "SQL" then
      ("Unable to process request", "DB_QUERY")
    else
      ("Something went wrong. Please try again.", "DB_UNKNOWN")

/-- `DbWrapper.wrapDatabaseError(error, sql, params)`: the classified error
built from the chain's user message and category together with the
diagnostic detail. -/
def wrapDatabaseError (e : RawError) (sql : String) (params : Value) : DatabaseError :=
  ⟨(classifyPair e).1, wrapDetails e sql params, (classifyPair e).2⟩

/-- One row of the specification's classification rule table: a predicate on
the raw error together with the user message and category it assigns. -/
structure ErrRule where
  cond : RawError → Bool
  userMessage : String
  category : String

/-- The specification's fixed, ordered rule table (spec section 4.3),
written independently of the if/else-if chain. -/
def ruleTable : List ErrRule :=
  [⟨fun e => e.code == some "ER_DUP_ENTRY", "This record already exists", "DB_DUPLICATE"⟩,
   ⟨fun e => e.code == some "ER_NO_SUCH_TABLE", "Unable to process request", "DB_TABLE_NOT_FOUND"⟩,
   ⟨fun e => e.code == some "ER_BAD_FIELD_ERROR", "Invalid request parameters", "DB_FIELD_ERROR"⟩,
   ⟨fun e => e.code == some "SQLITE_CONSTRAINT" || msgIncludes e "UNIQUE constraint",
     "This record already exists", "DB_DUPLICATE"⟩,
   ⟨fun e => e.code == some "23505", "This record already exists", "DB_DUPLICATE"⟩,
   ⟨fun e => e.code == some "23503", "Cannot perform this operation", "DB_FOREIGN_KEY"⟩,
   ⟨fun e => e.code == some "ECONNREFUSED" || e.code == some "ENOTFOUND" ||
       e.code == some "ETIMEDOUT" || msgIncludes e "connect" || msgIncludes e "connection",
     "Unable to connect to database", "DB_CONNECTION"⟩,
   ⟨fun e => msgIncludes e "syntax" || msgIncludes e "SQL",
     "Unable to process request", "DB_QUERY"⟩]

/-- First-match-wins evaluation of an ordered rule list, falling through to
`DB_UNKNOWN` with its fixed user message. -/
def applyRules : List ErrRule → RawError → String × String
  | [], _ => ("Something went wrong. Please try again.", "DB_UNKNOWN")
  | r :: rs, e => if r.cond e then (r.userMessage, r.category) else applyRules rs e

/-- Classification according to the specification's rule table. -/
def classifyByTable (e : RawError) : String × String :=
  applyRules ruleTable e

/-! ## The query engine (`DbWrapper.query/getOne/get/exec` in core.js)

Adapter methods are modelled as functions from the SQL text and the (raw,
un-normalized) params value to either a result `Value` or a thrown `JsErr`.
Each engine operation returns its outcome together with the list of adapter
invocations it performed, so that "the adapter is never invoked" is a
statement about the trace. -/

/-- A record of one adapter method invocation, with the arguments passed. -/
inductive AdapterCall where
  | executeQuery : String → Value → AdapterCall
  | getOneCall : String → Value → AdapterCall
  | getCall : String → Value → AdapterCall
  | execCall : String → Value → AdapterCall

/-- The adapter capability record: `executeQuery` is required; `getOne`,
`get` and `exec` are optional (their presence is what `if
(this.adapter.getOne)` etc. test). -/
structure Adapter where
  executeQuery : String → Value → Except JsErr Value
  getOne? : Option (String → Value → Except JsErr Value)
  get? : Option (String → Value → Except JsErr Value)
  exec? : Option (String → Value → Except JsErr Value)

/-- The shared catch clause: an error that is already a `DatabaseError` is
rethrown unchanged, any other error is wrapped by `wrapDatabaseError`. -/
def handleErr (e : JsErr) (sql : String) (params : Value) : DatabaseError :=
  match e with
  | .classified d => d
  | .raw r => wrapDatabaseError r sql params

/-- `DbWrapper.query(sql, params)`: validate (before any adapter call), then
invoke the adapter's `executeQuery` with the original `params` value, and
classify any thrown error. -/
def query (a : Adapter) (sql : String) (params : Value) :
    Except DatabaseError Value × List AdapterCall :=
  match validateParams sql params with
  | .error d => (.error d, [])
  | .ok _ =>
    match a.executeQuery sql params with
    | .ok v => (.ok v, [.executeQuery sql params])
    | .error e => (.error (handleErr e sql params), [.executeQuery sql params])

/-- The fallback post-processing in `DbWrapper.getOne`:
`Array.isArray(result) ? (result[0] || null) : null`.  Note `result[0] ||
null` turns a falsy first element into `null`. -/
def getOneFallbackPost (result : Value) : Value :=
  match result with
  | .vArr (x :: _) => if x.truthy then x else .vNull
  | _ => .vNull

/-- The fallback post-processing in `DbWrapper.get`:
`Array.isArray(result) ? result : []`. -/
def getFallbackPost (result : Value) : Value :=
  match result with
  | .vArr xs => .vArr xs
  | _ => .vArr []

/-- `DbWrapper.getOne(sql, params)`: if the adapter exposes `getOne`,
validate and delegate to it (classifying errors locally); otherwise fall
back to `query` and post-process its raw result. -/
def getOne (a : Adapter) (sql : String) (params : Value) :
    Except DatabaseError Value × List AdapterCall :=
  match a.getOne? with
  | some f =>
    (match validateParams sql params with
     | .error d => (.error d, [])
     | .ok _ =>
       match f sql params with
       | .ok v => (.ok v, [.getOneCall sql params])
       | .error e => (.error (handleErr e sql params), [.getOneCall sql params]))
  | none =>
    match query a sql params with
    | (.error d, tr) => (.error d, tr)
    | (.ok result, tr) => (.ok (getOneFallbackPost result), tr)

/-- `DbWrapper.get(sql, params)`: same dispatch shape as `getOne`, with the
array-coercing fallback post-processing. -/
def get (a : Adapter) (sql : String) (params : Value) :
    Except DatabaseError Value × List AdapterCall :=
  match a.get? with
  | some f =>
    (match validateParams sql params with
     | .error d => (.error d, [])
     | .ok _ =>
       match f sql params with
       | .ok v => (.ok v, [.getCall sql params])
       | .error e => (.error (handleErr e sql params), [.getCall sql params]))
  | none =>
    match query a sql params with
    | (.error d, tr) => (.error d, tr)
    | (.ok result, tr) => (.ok (getFallbackPost result), tr)

/-- `DbWrapper.exec(sql, params)`: same dispatch shape; the fallback returns
the raw `query` result unmodified. -/
def exec (a : Adapter) (sql : String) (params : Value) :
    Except DatabaseError Value × List AdapterCall :=
  match a.exec? with
  | some f =>
    (match validateParams sql params with
     | .error d => (.error d, [])
     | .ok _ =>
       match f sql params with
       | .ok v => (.ok v, [.execCall sql params])
       | .error e => (.error (handleErr e sql params), [.execCall sql params]))
  | none => query a sql params

/-! ## The MySQL adapter (adapters/mysql.js)

`connection.execute(sql, params)` resolves to the pair `[rows, fields]` or
rejects with a raw driver error; a connection is modelled by that function. -/

/-- A connection's `execute` behaviour. -/
def Conn : Type :=
  String → Value → Except RawError (Value × Value)

/-- mysql.js `executeQuery`: destructures `[rows]` and returns `rows`;
errors are rethrown for the core wrapper to classify. -/
def mysqlExecuteQuery (conn : Conn) (sql : String) (params : Value) : Except JsErr Value :=
  match conn sql params with
  | .ok (rows, _) => .ok rows
  | .error e => .error (.raw e)

/-- mysql.js `getOne`: `rows[0]` when `rows` is a non-empty array (even if
that element is falsy), else `null`. -/
def mysqlGetOne (conn : Conn) (sql : String) (params : Value) : Except JsErr Value :=
  match conn sql params with
  | .ok (rows, _) =>
    match rows with
    | .vArr (x :: _) => .ok x
    | _ => .ok .vNull
  | .error e => .error (.raw e)

/-- mysql.js `get`: `Array.isArray(rows) ? rows : []`. -/
def mysqlGet (conn : Conn) (sql : String) (params : Value) : Except JsErr Value :=
  match conn sql params with
  | .ok (rows, _) =>
    match rows with
    | .vArr xs => .ok (.vArr xs)
    | _ => .ok (.vArr [])
  | .error e => .error (.raw e)

/-- mysql.js `exec`: destructures `[result]` and returns it unmodified. -/
def mysqlExec (conn : Conn) (sql : String) (params : Value) : Except JsErr Value :=
  match conn sql params with
  | .ok (result, _) => .ok result
  | .error e => .error (.raw e)

/-- The full MySQL adapter: all specialized methods present. -/
def mysqlAdapter (conn : Conn) : Adapter where
  executeQuery := mysqlExecuteQuery conn
  getOne? := some (mysqlGetOne conn)
  get? := some (mysqlGet conn)
  exec? := some (mysqlExec conn)

/-- The same connection behind an adapter that implements only the required
`executeQuery`, forcing the engine's generic fallback paths. -/
def fallbackAdapter (conn : Conn) : Adapter where
  executeQuery := mysqlExecuteQuery conn
  getOne? := none
  get? := none
  exec? := none

/-! ## Transactions (mysql.js `transaction`) -/

/-- A record of one connection-level transaction call. -/
inductive TxCall where
  | beginT : TxCall
  | unitT : TxCall
  | commitT : TxCall
  | rollbackT : TxCall
deriving DecidableEq

/-- The connection's transaction-lifecycle behaviour:
`connection.beginTransaction/commit/rollback` each either resolve or reject. -/
structure TxConn where
  beginTx : Except JsErr Unit
  commitTx : Except JsErr Unit
  rollbackTx : Except JsErr Unit

/-- mysql.js `transaction(connection, callback)`: begin, run the unit of
work, commit and return its result; on any failure in the try block, roll
back and rethrow the caught error (a failure of the rollback itself replaces
it).  The trace records the calls issued, in order. -/
def transaction (c : TxConn) (unit : Except JsErr Value) :
    Except JsErr Value × List TxCall :=
  match c.beginTx with
  | .error e =>
    (match c.rollbackTx with
     | .ok _ => (.error e, [.beginT, .rollbackT])
     | .error e2 => (.error e2, [.beginT, .rollbackT]))
  | .ok _ =>
    match unit with
    | .error e =>
      (match c.rollbackTx with
       | .ok _ => (.error e, [.beginT, .unitT, .rollbackT])
       | .error e2 => (.error e2, [.beginT, .unitT, .rollbackT]))
    | .ok v =>
      match c.commitTx with
      | .ok _ => (.ok v, [.beginT, .unitT, .commitT])
      | .error e =>
        (match c.rollbackTx with
         | .ok _ => (.error e, [.beginT, .unitT, .commitT, .rollbackT])
         | .error e2 => (.error e2, [.beginT, .unitT, .commitT, .rollbackT]))

/-! ## Specification-side definitions -/

/-- The two pre-I/O validation categories of the error taxonomy. -/
def validationCategories : List String :=
  ["VALIDATION_MISMATCH", "VALIDATION_EMPTY"]

/-- The seven post-I/O categories of the error taxonomy. -/
def dbCategories : List String :=
  ["DB_DUPLICATE", "DB_TABLE_NOT_FOUND", "DB_FIELD_ERROR", "DB_FOREIGN_KEY",
   "DB_CONNECTION", "DB_QUERY", "DB_UNKNOWN"]

/-- Parameter normalization as the specification words it: an ordered
sequence is used as-is, a single non-sequence value becomes a one-element
sequence, and only a null or absent value becomes the empty sequence. -/
def normalizeParamsClaim (params : Value) : List Value :=
  match params with
  | .vArr xs => xs
  | .vNull => []
  | .vUndefined => []
  | v => [v]

/-- Raw row results on which the specialized and the fallback single-row
paths agree: anything except an array whose first element is falsy. -/
def goodRows : Value → Bool
  | .vArr (x :: _) => x.truthy
  | _ => true

/-! ## Helper lemmas -/

theorem firstEmptyIdx_none_iff (l : List Value) (i : Nat) :
    firstEmptyIdx l i = none ↔ ∀ v ∈ l, v.isEmptyParam = false := by
  induction l generalizing i with
  | nil => simp [firstEmptyIdx]
  | cons x xs ih =>
    by_cases hx : x.isEmptyParam = true <;> simp [firstEmptyIdx, hx, ih]

theorem firstEmptyIdx_spec (l : List Value) :
    ∀ (k i : Nat) (hi : i < l.length),
      (l.get ⟨i, hi⟩).isEmptyParam = true →
      (∀ v ∈ l.take i, v.isEmptyParam = false) →
      firstEmptyIdx l k = some (k + i) := by
  induction l with
  | nil => intro k i hi; simp at hi
  | cons x xs ih =>
    intro k i hi hget hpre
    cases i with
    | zero =>
      simp only [List.get] at hget
      simp [firstEmptyIdx, hget]
    | succ j =>
      have hx : x.isEmptyParam = false := hpre x (by simp)
      have hrest : ∀ v ∈ xs.take j, v.isEmptyParam = false := fun v hv => hpre v (by simp [hv])
      have hj : j < xs.length := by
        have h2 := hi
        simp only [List.length_cons] at h2
        omega
      have hih := ih (k + 1) j hj (by simpa using hget) hrest
      rw [firstEmptyIdx, if_neg (by simp [hx]), hih]
      congr 1
      omega

theorem validateParams_error_type (sql : String) (params : Value)
    (d : DatabaseError) (h : validateParams sql params = .error d) :
    d.errType = "VALIDATION_MISMATCH" ∨ d.errType = "VALIDATION_EMPTY" := by
  unfold validateParams at h
  split at h
  · cases h
    left; rfl
  · split at h
    · cases h
      right; rfl
    · cases h

/-! ## Claims -/

/-- C1: for every SQL string the placeholder count is an ordered,
first-match decision: a string containing `?` counts every `?` occurrence;
else a string containing dollar-number tokens counts the distinct numeric
values among them; else a string containing colon-word tokens counts every
such occurrence; else the count is 0. -/
theorem countPlaceholders_ordered_first_match (sql : String) :
    countPlaceholders sql =
      if '?' ∈ sql.data then
        sql.data.count '?'
      else if dollarTokens sql.data ≠ [] then
        (dollarTokens sql.data).toFinset.card
      else if namedCount sql.data ≠ 0 then
        namedCount sql.data
      else 0 := by
  unfold countPlaceholders
  by_cases h1 : '?' ∈ sql.data
  · have hc : sql.data.count '?' ≠ 0 :=
      Nat.pos_iff_ne_zero.mp (List.count_pos_iff.mpr h1)
    simp [h1, hc]
  · have hc : sql.data.count '?' = 0 := by
      by_contra hne
      exact h1 (List.count_pos_iff.mp (Nat.pos_of_ne_zero hne))
    rw [List.card_toFinset]
    simp only [hc, h1]
    by_cases h2 : dollarTokens sql.data = [] <;>
      by_cases h3 : namedCount sql.data = 0 <;>
      simp [h2, h3]

/-- C2: validation succeeds iff the normalized parameter count equals the
placeholder count and no normalized parameter is null, undefined or the
empty string; a count mismatch raises `VALIDATION_MISMATCH` and otherwise
the first offending parameter raises `VALIDATION_EMPTY` whose diagnostic
detail names its zero-based index; both failures carry the fixed user
message `Invalid request parameters`. -/
theorem validateParams_success_iff_and_failure_modes (sql : String) (params : Value) :
    (validateParams sql params = .ok true ↔
      (normalizeParams params).length = countPlaceholders sql ∧
        ∀ v ∈ normalizeParams params, v.isEmptyParam = false) ∧
    ((normalizeParams params).length ≠ countPlaceholders sql →
      validateParams sql params = .error
        ⟨"Invalid request parameters",
          mismatchDetails sql (countPlaceholders sql)
            (normalizeParams params).length (normalizeParams params),
          "VALIDATION_MISMATCH"⟩) ∧
    ((normalizeParams params).length = countPlaceholders sql →
      ∀ (i : Nat) (hi : i < (normalizeParams params).length),
        ((normalizeParams params).get ⟨i, hi⟩).isEmptyParam = true →
        (∀ v ∈ (normalizeParams params).take i, v.isEmptyParam = false) →
        validateParams sql params = .error
          ⟨"Invalid request parameters",
            emptyDetails sql i (normalizeParams params),
            "VALIDATION_EMPTY"⟩) := by
  refine ⟨?_, ?_, ?_⟩
  · constructor
    · intro h
      unfold validateParams at h
      split at h
      · cases h
      · rename_i hlen
        constructor
        · omega
        · split at h
          · cases h
          · rename_i hnone
            exact (firstEmptyIdx_none_iff _ 0).mp hnone
    · rintro ⟨hlen, hall⟩
      unfold validateParams
      have : ¬countPlaceholders sql ≠ (normalizeParams params).length := by omega
      simp only [this, if_false]
      rw [(firstEmptyIdx_none_iff _ 0).mpr hall]
  · intro hlen
    unfold validateParams
    have : countPlaceholders sql ≠ (normalizeParams params).length := by omega
    simp [this]
  · intro hlen i hi hget hpre
    unfold validateParams
    have hne : ¬countPlaceholders sql ≠ (normalizeParams params).length := by omega
    simp only [hne, if_false]
    rw [firstEmptyIdx_spec (normalizeParams params) 0 i hi hget hpre]
    simp

/-- Witness for C2 at a concrete input: one `?` placeholder with a
one-element array holding the empty string fails at index 0 with
`VALIDATION_EMPTY`. -/
theorem validateParams_success_iff_and_failure_modes_witness :
    (1 : Nat) < 2 ∧
      validateParams "a = ? AND b = ?" (.vArr [.vNum 7, .vStr ""]) = .error
        ⟨"Invalid request parameters",
          emptyDetails "a = ? AND b = ?" 1 [.vNum 7, .vStr ""],
          "VALIDATION_EMPTY"⟩ := by
  refine ⟨by decide, ?_⟩
  have h := (validateParams_success_iff_and_failure_modes "a = ? AND b = ?"
    (.vArr [.vNum 7, .vStr ""])).2.2
  exact h (by decide) 1 (by decide) (by decide) (by decide)

/-! ## Witness fixtures -/

/-- A test-double adapter whose methods all succeed with `null`, used to
instantiate adapter-quantified theorems at a concrete input. -/
def stubAdapter : Adapter where
  executeQuery := fun _ _ => .ok .vNull
  getOne? := some (fun _ _ => .ok .vNull)
  get? := some (fun _ _ => .ok .vNull)
  exec? := some (fun _ _ => .ok .vNull)

/-- A concrete duplicate-key driver error (MySQL shape). -/
def dupRawError : RawError :=
  ⟨some "ER_DUP_ENTRY", some "Duplicate entry for key users.email", none⟩

/-- An adapter whose required method always rejects with `dupRawError`. -/
def dupErrAdapter : Adapter where
  executeQuery := fun _ _ => .error (.raw dupRawError)
  getOne? := none
  get? := none
  exec? := none

/-- C3: when parameter validation fails, every operation returns the
validation error (which carries a validation category) and the adapter call
trace is empty — no adapter method is ever invoked. -/
theorem validation_failure_blocks_adapter (a : Adapter) (sql : String)
    (params : Value) (d : DatabaseError)
    (h : validateParams sql params = .error d) :
    query a sql params = (.error d, []) ∧
    getOne a sql params = (.error d, []) ∧
    get a sql params = (.error d, []) ∧
    exec a sql params = (.error d, []) ∧
    (d.errType = "VALIDATION_MISMATCH" ∨ d.errType = "VALIDATION_EMPTY") := by
  have hq : query a sql params = (.error d, []) := by
    unfold query
    rw [h]
  refine ⟨hq, ?_, ?_, ?_, validateParams_error_type sql params d h⟩
  · unfold getOne
    cases a.getOne? with
    | some f => rw [h]
    | none => rw [hq]
  · unfold get
    cases a.get? with
    | some f => rw [h]
    | none => rw [hq]
  · unfold exec
    cases a.exec? with
    | some f => rw [h]
    | none => rw [hq]

/-- Witness for C3: one placeholder, zero parameters, against the stub
adapter — the mismatch error surfaces and the trace is empty. -/
theorem validation_failure_blocks_adapter_witness :
    validateParams "id = ?" (.vArr []) = .error
      ⟨"Invalid request parameters", mismatchDetails "id = ?" 1 0 [],
        "VALIDATION_MISMATCH"⟩ ∧
    query stubAdapter "id = ?" (.vArr []) =
      (.error ⟨"Invalid request parameters", mismatchDetails "id = ?" 1 0 [],
        "VALIDATION_MISMATCH"⟩, []) := by
  refine ⟨rfl, ?_⟩
  exact (validation_failure_blocks_adapter stubAdapter "id = ?" (.vArr []) _ rfl).1

/-- C4 counterexample: the number 0 is a single non-sequence value that is
neither null nor absent, yet the code normalizes it to the empty sequence
(JS truthiness test), not to the one-element sequence the claim requires. -/
theorem normalizeParams_claim_counterexample :
    Value.isArray (.vNum 0) = false ∧
    Value.vNum 0 ≠ .vNull ∧
    Value.vNum 0 ≠ .vUndefined ∧
    normalizeParams (.vNum 0) = [] ∧
    normalizeParamsClaim (.vNum 0) = [.vNum 0] ∧
    normalizeParams (.vNum 0) ≠ normalizeParamsClaim (.vNum 0) := by
  refine ⟨rfl, fun h => Value.noConfusion h, fun h => Value.noConfusion h, rfl, rfl, fun h => ?_⟩
  rw [show normalizeParams (.vNum 0) = [] from rfl,
    show normalizeParamsClaim (.vNum 0) = [.vNum 0] from rfl] at h
  exact List.noConfusion h

/-- C4 amended: an ordered sequence is used as-is; a single non-sequence
value becomes a one-element sequence exactly when it is truthy; null,
undefined and every other falsy scalar (false, 0, the empty string)
normalize to the empty sequence. -/
theorem normalizeParams_amended (xs : List Value) (v : Value)
    (hv : v.isArray = false) :
    normalizeParams (.vArr xs) = xs ∧
    (v.truthy = true → normalizeParams v = [v]) ∧
    (v.truthy = false → normalizeParams v = []) := by
  refine ⟨rfl, ?_, ?_⟩ <;> intro h <;>
    cases v <;> simp_all [normalizeParams, Value.truthy, Value.isArray]

/-- Witness for C4 amended: the truthy scalar 5 becomes `[5]`, and (via a
second application at a falsy scalar) `false` becomes `[]`. -/
theorem normalizeParams_amended_witness :
    Value.isArray (.vNum 5) = false ∧
    normalizeParams (.vNum 5) = [.vNum 5] ∧
    Value.isArray (.vBool false) = false ∧
    normalizeParams (.vBool false) = [] := by
  refine ⟨rfl, ?_, rfl, ?_⟩
  · exact (normalizeParams_amended [] (.vNum 5) rfl).2.1 rfl
  · exact (normalizeParams_amended [] (.vBool false) rfl).2.2 rfl

/-- C5: the classification chain is exactly first-match evaluation of the
specification's ordered rule table with `DB_UNKNOWN`/fixed-message
fallthrough; every error whose code is a duplicate-key signal (MySQL
`ER_DUP_ENTRY`, SQLite `SQLITE_CONSTRAINT`, PostgreSQL `23505`) is
classified `DB_DUPLICATE` with user message `This record already exists`;
and on an adapter failure the engine raises precisely the classified
error. -/
theorem duplicate_key_classification (a : Adapter) (sql : String)
    (params : Value) (e : RawError) :
    wrapDatabaseError e sql params =
      ⟨(classifyByTable e).1, wrapDetails e sql params, (classifyByTable e).2⟩ ∧
    ((e.code = some "ER_DUP_ENTRY" ∨ e.code = some "SQLITE_CONSTRAINT" ∨
        e.code = some "23505") →
      (wrapDatabaseError e sql params).message = "This record already exists" ∧
      (wrapDatabaseError e sql params).errType = "DB_DUPLICATE") ∧
    (validateParams sql params = .ok true →
      a.executeQuery sql params = .error (.raw e) →
      (query a sql params).1 = .error (wrapDatabaseError e sql params)) := by
  refine ⟨rfl, ?_, ?_⟩
  · rintro (h | h | h) <;>
      simp [wrapDatabaseError, classifyPair, h]
  · intro hv he
    unfold query
    rw [hv, he]
    rfl

/-- Witness for C5: a concrete `ER_DUP_ENTRY` failure from the adapter is
raised by `query` as `DB_DUPLICATE` with the fixed user message. -/
theorem duplicate_key_classification_witness :
    (wrapDatabaseError dupRawError "INSERT INTO users" (.vArr [.vNum 1])).message =
      "This record already exists" ∧
    (wrapDatabaseError dupRawError "INSERT INTO users" (.vArr [.vNum 1])).errType =
      "DB_DUPLICATE" ∧
    (query dupErrAdapter "INSERT INTO users" (.vArr [])).1 =
      .error (wrapDatabaseError dupRawError "INSERT INTO users" (.vArr [])) := by
  have h1 := (duplicate_key_classification dupErrAdapter "INSERT INTO users"
    (.vArr [.vNum 1]) dupRawError).2.1 (Or.inl rfl)
  have h2 := (duplicate_key_classification dupErrAdapter "INSERT INTO users"
    (.vArr []) dupRawError).2.2 rfl rfl
  exact ⟨h1.1, h1.2, h2⟩

/-- C10: the engine forwards the caller's original, un-normalized `params`
value to the adapter: a single non-sequence value that passes validation
reaches `executeQuery` as the bare scalar itself, which is not the
one-element sequence used during validation. -/
theorem query_forwards_unnormalized_params (a : Adapter) (sql : String)
    (p : Value) (hp : p.isArray = false)
    (hv : validateParams sql p = .ok true) :
    (query a sql p).2 = [.executeQuery sql p] ∧ Value.vArr [p] ≠ p := by
  constructor
  · unfold query
    rw [hv]
    cases he : a.executeQuery sql p <;> rfl
  · intro h
    cases p <;> first
      | exact Value.noConfusion h
      | exact Bool.noConfusion hp

/-- Witness for C10: the scalar 5 against one `?` placeholder passes
validation and is handed to the adapter bare. -/
theorem query_forwards_unnormalized_params_witness :
    Value.isArray (.vNum 5) = false ∧
    validateParams "id = ?" (.vNum 5) = .ok true ∧
    (query stubAdapter "id = ?" (.vNum 5)).2 = [.executeQuery "id = ?" (.vNum 5)] := by
  refine ⟨rfl, rfl, ?_⟩
  exact (query_forwards_unnormalized_params stubAdapter "id = ?" (.vNum 5) rfl rfl).1

/-- An adapter with no specialized methods whose raw result is the
one-element row array `[0]` — a sequence whose first element is falsy. -/
def falsyRowAdapter : Adapter where
  executeQuery := fun _ _ => .ok (.vArr [.vNum 0])
  getOne? := none
  get? := none
  exec? := none

/-- An adapter with no specialized methods whose raw result is a one-row
array (the row modelled by a truthy value). -/
def oneRowAdapter : Adapter where
  executeQuery := fun _ _ => .ok (.vArr [.vStr "John"])
  getOne? := none
  get? := none
  exec? := none

/-- C6 counterexample: with no specialized method and raw result `[0]`
(a sequence whose first element is the falsy number 0), the claim says
fetch-one yields the first element 0, but the code's `result[0] || null`
yields the no-row marker instead. -/
theorem getOne_fallback_first_element_counterexample :
    falsyRowAdapter.getOne? = none ∧
    falsyRowAdapter.executeQuery "SELECT x" (.vArr []) = .ok (.vArr [.vNum 0]) ∧
    (getOne falsyRowAdapter "SELECT x" (.vArr [])).1 = .ok .vNull ∧
    Value.vNull ≠ .vNum 0 :=
  ⟨rfl, rfl, rfl, fun h => Value.noConfusion h⟩

/-- C6 amended: on the fallback path, fetch-one yields the first element of
the result sequence when that element is truthy, and the no-row marker
(null) — never an error — when the sequence is empty, when its first element
is falsy, or when the raw result is not a sequence; fetch-all coerces any
non-sequence raw result to the empty sequence and passes sequences through;
mutate returns the raw result unmodified. -/
theorem fallback_postprocessing_amended (a : Adapter) (sql : String)
    (params : Value) (raw : Value)
    (hv : validateParams sql params = .ok true)
    (hq : a.executeQuery sql params = .ok raw) :
    (a.getOne? = none → raw = .vArr [] → (getOne a sql params).1 = .ok .vNull) ∧
    (a.getOne? = none → ∀ x xs, raw = .vArr (x :: xs) → x.truthy = true →
      (getOne a sql params).1 = .ok x) ∧
    (a.getOne? = none → ∀ x xs, raw = .vArr (x :: xs) → x.truthy = false →
      (getOne a sql params).1 = .ok .vNull) ∧
    (a.getOne? = none → raw.isArray = false → (getOne a sql params).1 = .ok .vNull) ∧
    (a.get? = none → raw.isArray = false → (get a sql params).1 = .ok (.vArr [])) ∧
    (a.get? = none → ∀ xs, raw = .vArr xs → (get a sql params).1 = .ok (.vArr xs)) ∧
    (a.exec? = none → (exec a sql params).1 = .ok raw) := by
  have hqr : query a sql params = (.ok raw, [.executeQuery sql params]) := by
    unfold query
    rw [hv, hq]
  have hgo : ∀ h1 : a.getOne? = none,
      (getOne a sql params).1 = .ok (getOneFallbackPost raw) := by
    intro h1
    unfold getOne
    rw [h1, hqr]
  have hg : ∀ h1 : a.get? = none,
      (get a sql params).1 = .ok (getFallbackPost raw) := by
    intro h1
    unfold get
    rw [h1, hqr]
  refine ⟨?_, ?_, ?_, ?_, ?_, ?_, ?_⟩
  · intro h1 h2
    rw [hgo h1, h2]
    rfl
  · intro h1 x xs h2 hx
    rw [hgo h1, h2]
    simp [getOneFallbackPost, hx]
  · intro h1 x xs h2 hx
    rw [hgo h1, h2]
    simp [getOneFallbackPost, hx]
  · intro h1 h2
    rw [hgo h1]
    cases raw <;> simp_all [getOneFallbackPost, Value.isArray]
  · intro h1 h2
    rw [hg h1]
    cases raw <;> simp_all [getFallbackPost, Value.isArray]
  · intro h1 xs h2
    rw [hg h1, h2]
    rfl
  · intro h1
    unfold exec
    rw [h1, hqr]

/-- Witness for C6 amended: one truthy row yields that row from the
fetch-one fallback, and mutate returns the raw result unmodified. -/
theorem fallback_postprocessing_amended_witness :
    (getOne oneRowAdapter "SELECT x" (.vArr [])).1 = .ok (.vStr "John") ∧
    (exec oneRowAdapter "SELECT x" (.vArr [])).1 = .ok (.vArr [.vStr "John"]) := by
  have h := fallback_postprocessing_amended oneRowAdapter "SELECT x" (.vArr [])
    (.vArr [.vStr "John"]) rfl rfl
  exact ⟨h.2.1 rfl (.vStr "John") [] rfl rfl, h.2.2.2.2.2.2 rfl⟩

/-- A connection that always resolves with the rows `[0]` (first row
falsy). -/
def falsyRowConn : Conn := fun _ _ => .ok (.vArr [.vNum 0], .vArr [])

/-- C7 counterexample: against the same connection answering `[0]`, the
MySQL specialized single-row method returns the first row 0 while the
generic fallback yields the no-row marker — the observable outcome depends
on which path is taken. -/
theorem specialized_vs_fallback_getOne_counterexample :
    (getOne (mysqlAdapter falsyRowConn) "SELECT x" (.vArr [])).1 = .ok (.vNum 0) ∧
    (getOne (fallbackAdapter falsyRowConn) "SELECT x" (.vArr [])).1 = .ok .vNull ∧
    (Except.ok (Value.vNum 0) : Except DatabaseError Value) ≠ .ok .vNull := by
  refine ⟨rfl, rfl, fun h => ?_⟩
  exact Value.noConfusion (Except.ok.inj h)

/-- C7 amended: over any connection, fetch-all and mutate are observably
equivalent between the MySQL specialized adapter and the generic fallback
(and query is shared); fetch-one is equivalent whenever every successful
execute result carries rows that are not a sequence with a falsy first
element — in particular whenever rows are row objects. -/
theorem specialized_fallback_equivalence_amended (conn : Conn) (sql : String)
    (params : Value) :
    (get (mysqlAdapter conn) sql params).1 = (get (fallbackAdapter conn) sql params).1 ∧
    (exec (mysqlAdapter conn) sql params).1 = (exec (fallbackAdapter conn) sql params).1 ∧
    ((∀ rows fields, conn sql params = .ok (rows, fields) → goodRows rows = true) →
      (getOne (mysqlAdapter conn) sql params).1 =
        (getOne (fallbackAdapter conn) sql params).1) := by
  cases hv : validateParams sql params with
  | error d =>
    refine ⟨?_, ?_, fun _ => ?_⟩ <;>
      simp only [get, exec, getOne, query, mysqlAdapter, fallbackAdapter, hv]
  | ok b =>
    cases hc : conn sql params with
    | error e =>
      refine ⟨?_, ?_, fun _ => ?_⟩ <;>
        simp only [get, exec, getOne, query, mysqlAdapter, fallbackAdapter,
          mysqlGet, mysqlExec, mysqlGetOne, mysqlExecuteQuery, hv, hc]
    | ok rf =>
      obtain ⟨rows, fields⟩ := rf
      refine ⟨?_, ?_, fun hgood => ?_⟩
      · simp only [get, query, mysqlAdapter, fallbackAdapter, mysqlGet,
          mysqlExecuteQuery, hv, hc]
        cases rows <;> rfl
      · simp only [exec, query, mysqlAdapter, fallbackAdapter, mysqlExec,
          mysqlExecuteQuery, hv, hc]
      · have hg := hgood rows fields rfl
        simp only [getOne, query, mysqlAdapter, fallbackAdapter, mysqlGetOne,
          mysqlExecuteQuery, hv, hc]
        cases rows with
        | vArr xs =>
          cases xs with
          | nil => rfl
          | cons x rest =>
            simp only [goodRows] at hg
            simp [getOneFallbackPost, hg]
        | vNull => rfl
        | vUndefined => rfl
        | vBool b2 => rfl
        | vNum n => rfl
        | vStr s => rfl

/-- Witness for C7 amended: a connection answering one truthy row gives the
same fetch-one outcome on both paths. -/
theorem specialized_fallback_equivalence_amended_witness :
    (getOne (mysqlAdapter (fun _ _ => .ok (.vArr [.vStr "John"], .vArr []))) "q" .vNull).1 =
      (getOne (fallbackAdapter (fun _ _ => .ok (.vArr [.vStr "John"], .vArr []))) "q" .vNull).1 ∧
    (get (mysqlAdapter (fun _ _ => .ok (.vArr [.vStr "John"], .vArr []))) "q" .vNull).1 =
      (get (fallbackAdapter (fun _ _ => .ok (.vArr [.vStr "John"], .vArr []))) "q" .vNull).1 := by
  have h := specialized_fallback_equivalence_amended
    (fun _ _ => .ok (.vArr [.vStr "John"], .vArr [])) "q" .vNull
  refine ⟨h.2.2 ?_, h.1⟩
  intro rows fields hc
  cases hc
  rfl

/-- A concrete raw driver failure used as a failing commit. -/
def commitRawError : RawError := ⟨some "ETIMEDOUT", some "commit timed out", none⟩

/-- A transaction connection whose commit rejects and whose rollback
succeeds. -/
def commitFailConn : TxConn := ⟨.ok (), .error (.raw commitRawError), .ok ()⟩

/-- An all-successful transaction connection. -/
def okTxConn : TxConn := ⟨.ok (), .ok (), .ok ()⟩

/-- C8 counterexample: the unit of work succeeds, yet — the commit call
failing — rollback is invoked and the unit's result is not returned,
contradicting the claim's "on unit success, commit is called and the unit's
result is returned with rollback never invoked". -/
theorem transaction_commit_failure_counterexample :
    transaction commitFailConn (.ok (.vNum 1)) =
      (.error (.raw commitRawError), [.beginT, .unitT, .commitT, .rollbackT]) ∧
    TxCall.rollbackT ∈ (transaction commitFailConn (.ok (.vNum 1))).2 ∧
    (transaction commitFailConn (.ok (.vNum 1))).1 ≠ .ok (.vNum 1) := by
  refine ⟨rfl, by decide, fun h => ?_⟩
  rw [show (transaction commitFailConn (.ok (.vNum 1))).1 =
    .error (.raw commitRawError) from rfl] at h
  exact Except.noConfusion h

/-- C8 amended (given the begin call succeeds): on unit success, commit is
invoked; if commit succeeds, the unit's result is returned and rollback is
never invoked; if commit fails, rollback is invoked and the commit failure
is raised (or the rollback failure, if the rollback also fails).  On unit
failure, rollback is invoked, commit is never invoked, and the original unit
failure is re-raised — unless the rollback itself fails, in which case the
rollback failure is raised instead. -/
theorem transaction_protocol_amended (c : TxConn) (u : Except JsErr Value)
    (hb : c.beginTx = .ok ()) :
    (∀ v, u = .ok v →
      TxCall.commitT ∈ (transaction c u).2 ∧
      (c.commitTx = .ok () →
        transaction c u = (.ok v, [.beginT, .unitT, .commitT])) ∧
      (∀ e, c.commitTx = .error e →
        TxCall.rollbackT ∈ (transaction c u).2 ∧
        (c.rollbackTx = .ok () → (transaction c u).1 = .error e) ∧
        (∀ e2, c.rollbackTx = .error e2 → (transaction c u).1 = .error e2))) ∧
    (∀ e, u = .error e →
      TxCall.rollbackT ∈ (transaction c u).2 ∧
      TxCall.commitT ∉ (transaction c u).2 ∧
      (c.rollbackTx = .ok () → (transaction c u).1 = .error e) ∧
      (∀ e2, c.rollbackTx = .error e2 → (transaction c u).1 = .error e2)) := by
  constructor
  · rintro v rfl
    cases hcm : c.commitTx with
    | ok uu =>
      cases uu
      have ht : transaction c (.ok v) = (.ok v, [.beginT, .unitT, .commitT]) := by
        unfold transaction
        rw [hb, hcm]
      refine ⟨?_, fun _ => ht, fun e he => Except.noConfusion he⟩
      rw [ht]
      simp
    | error e0 =>
      have hsub : TxCall.rollbackT ∈ (transaction c (.ok v)).2 ∧
          TxCall.commitT ∈ (transaction c (.ok v)).2 ∧
          (c.rollbackTx = .ok () → (transaction c (.ok v)).1 = .error e0) ∧
          (∀ e2, c.rollbackTx = .error e2 → (transaction c (.ok v)).1 = .error e2) := by
        cases hrb : c.rollbackTx with
        | ok uu =>
          cases uu
          have ht : transaction c (.ok v) =
              (.error e0, [.beginT, .unitT, .commitT, .rollbackT]) := by
            unfold transaction
            rw [hb, hcm, hrb]
          rw [ht]
          exact ⟨by simp, by simp, fun _ => rfl, fun e2 he2 => Except.noConfusion he2⟩
        | error e2 =>
          have ht : transaction c (.ok v) =
              (.error e2, [.beginT, .unitT, .commitT, .rollbackT]) := by
            unfold transaction
            rw [hb, hcm, hrb]
          rw [ht]
          refine ⟨by simp, by simp, fun hr => Except.noConfusion hr, fun e3 he3 => ?_⟩
          injection he3 with h'
          rw [h']
      refine ⟨hsub.2.1, fun hok => Except.noConfusion hok, fun e he => ?_⟩
      injection he with h'
      subst h'
      exact ⟨hsub.1, hsub.2.2.1, hsub.2.2.2⟩
  · rintro e rfl
    cases hrb : c.rollbackTx with
    | ok uu =>
      cases uu
      have ht : transaction c (.error e) = (.error e, [.beginT, .unitT, .rollbackT]) := by
        unfold transaction
        rw [hb, hrb]
      rw [ht]
      exact ⟨by simp, by simp, fun _ => rfl, fun e2 he2 => Except.noConfusion he2⟩
    | error e2 =>
      have ht : transaction c (.error e) = (.error e2, [.beginT, .unitT, .rollbackT]) := by
        unfold transaction
        rw [hb, hrb]
      rw [ht]
      refine ⟨by simp, by simp, fun hr => Except.noConfusion hr, fun e3 he3 => ?_⟩
      injection he3 with h'
      rw [h']

/-- Witness for C8 amended: a fully successful transaction returns the
unit's result after begin, unit, commit — and nothing else. -/
theorem transaction_protocol_amended_witness :
    okTxConn.beginTx = .ok () ∧
    transaction okTxConn (.ok (.vNum 7)) =
      (.ok (.vNum 7), [.beginT, .unitT, .commitT]) := by
  refine ⟨rfl, ?_⟩
  exact ((transaction_protocol_amended okTxConn (.ok (.vNum 7)) rfl).1
    (.vNum 7) rfl).2.1 rfl

/-! ## C9: surfaced errors -/

/-- `error instanceof DatabaseError`. -/
def JsErr.isClassified : JsErr → Bool
  | .classified _ => true
  | .raw _ => false

/-- A concrete connection-refused raw driver error. -/
def connRawError : RawError := ⟨some "ECONNREFUSED", some "connect ECONNREFUSED 127.0.0.1", none⟩

/-- A transaction connection whose begin call rejects with a raw driver
error. -/
def beginFailConn : TxConn := ⟨.error (.raw connRawError), .ok (), .ok ()⟩

/-- An adapter whose required method rejects with an error already in
`DatabaseError` shape (e.g. bubbling up from a nested wrapped call). -/
def classifiedErrAdapter : Adapter where
  executeQuery := fun _ _ => .error (.classified ⟨"custom message", "custom detail", "DB_DUPLICATE"⟩)
  getOne? := none
  get? := none
  exec? := none

theorem classifyPair_category_mem (e : RawError) :
    (classifyPair e).2 ∈ dbCategories := by
  unfold classifyPair dbCategories
  split_ifs <;> simp

/-- C9 counterexample: the `transaction` operation exposed by the wrapped
database object surfaces the raw driver error of a failing begin call
without any classification — a raw, unclassified driver error reaches the
caller, contradicting the claim's "every error surfaced to a caller through
any operation of the wrapped database object is a ClassifiedError". -/
theorem raw_error_through_transaction_counterexample :
    (transaction beginFailConn (.ok .vNull)).1 = .error (.raw connRawError) ∧
    (JsErr.raw connRawError).isClassified = false :=
  ⟨rfl, rfl⟩

/-- C9 amended: every error surfaced by the validate/classify operations
query, getOne, get and exec is a `DatabaseError`: validation failures carry
a validation category; raw adapter errors are always reclassified into the
DB taxonomy and never passed through; an error already in `DatabaseError`
shape is passed through unchanged; and the fallback paths surface exactly
the query error.  (The transaction-lifecycle operations are exempt: they
pass driver errors through unclassified — see the counterexample.) -/
theorem surfaced_errors_classified_amended (a : Adapter) (sql : String)
    (params : Value) :
    (∀ d, validateParams sql params = .error d →
      (query a sql params).1 = .error d ∧ d.errType ∈ validationCategories) ∧
    (validateParams sql params = .ok true →
      (∀ d, a.executeQuery sql params = .error (.classified d) →
        (query a sql params).1 = .error d) ∧
      (∀ e, a.executeQuery sql params = .error (.raw e) →
        (query a sql params).1 = .error (wrapDatabaseError e sql params) ∧
          (wrapDatabaseError e sql params).errType ∈ dbCategories) ∧
      (∀ f d, a.getOne? = some f → f sql params = .error (.classified d) →
        (getOne a sql params).1 = .error d) ∧
      (∀ f e, a.getOne? = some f → f sql params = .error (.raw e) →
        (getOne a sql params).1 = .error (wrapDatabaseError e sql params)) ∧
      (∀ f d, a.get? = some f → f sql params = .error (.classified d) →
        (get a sql params).1 = .error d) ∧
      (∀ f e, a.get? = some f → f sql params = .error (.raw e) →
        (get a sql params).1 = .error (wrapDatabaseError e sql params)) ∧
      (∀ f d, a.exec? = some f → f sql params = .error (.classified d) →
        (exec a sql params).1 = .error d) ∧
      (∀ f e, a.exec? = some f → f sql params = .error (.raw e) →
        (exec a sql params).1 = .error (wrapDatabaseError e sql params))) ∧
    (a.getOne? = none → ∀ d tr, query a sql params = (.error d, tr) →
      (getOne a sql params).1 = .error d) ∧
    (a.get? = none → ∀ d tr, query a sql params = (.error d, tr) →
      (get a sql params).1 = .error d) ∧
    (a.exec? = none → ∀ d tr, query a sql params = (.error d, tr) →
      (exec a sql params).1 = .error d) := by
  refine ⟨?_, ?_, ?_, ?_, ?_⟩
  · intro d h
    have hq : query a sql params = (.error d, []) := by
      unfold query
      rw [h]
    refine ⟨by rw [hq], ?_⟩
    rcases validateParams_error_type sql params d h with h2 | h2 <;>
      simp [validationCategories, h2]
  · intro hv
    refine ⟨?_, ?_, ?_, ?_, ?_, ?_, ?_, ?_⟩
    · intro d he
      unfold query
      rw [hv, he]
      rfl
    · intro e he
      refine ⟨?_, classifyPair_category_mem e⟩
      unfold query
      rw [hv, he]
      rfl
    · intro f d hf he
      unfold getOne
      simp only [hf, hv, he, handleErr]
    · intro f e hf he
      unfold getOne
      simp only [hf, hv, he, handleErr]
    · intro f d hf he
      unfold get
      simp only [hf, hv, he, handleErr]
    · intro f e hf he
      unfold get
      simp only [hf, hv, he, handleErr]
    · intro f d hf he
      unfold exec
      simp only [hf, hv, he, handleErr]
    · intro f e hf he
      unfold exec
      simp only [hf, hv, he, handleErr]
  · intro hn d tr hq
    unfold getOne
    rw [hn, hq]
  · intro hn d tr hq
    unfold get
    rw [hn, hq]
  · intro hn d tr hq
    unfold exec
    rw [hn, hq]

/-- Witness for C9 amended: an adapter failure already in `DatabaseError`
shape is passed through `query` unchanged. -/
theorem surfaced_errors_classified_amended_witness :
    validateParams "SELECT 1" .vNull = .ok true ∧
    (query classifiedErrAdapter "SELECT 1" .vNull).1 =
      .error ⟨"custom message", "custom detail", "DB_DUPLICATE"⟩ := by
  refine ⟨rfl, ?_⟩
  exact ((surfaced_errors_classified_amended classifiedErrAdapter "SELECT 1"
    .vNull).2.1 rfl).1 ⟨"custom message", "custom detail", "DB_DUPLICATE"⟩ rfl

end DbWrapper
